import Mathlib

/-!
Verification of the JSON-RPC / LSP message-vocabulary module of this
repository (`src/jsonrpc.rs`, `src/main.rs`): the `LspMethod` enumeration,
its bidirectional wire-string mapping, request serialization, and response
deserialization.
-/

namespace LspStudy

/-- The `LspMethod` enumeration of `src/jsonrpc.rs` (lines 6-70), in source
declaration order. -/
inductive LspMethod where
  | Initialize
  | Shutdown
  | DidChange
  | DidOpen
  | DidClose
  | Hover
  | Completion
  | SignatureHelp
  | Definition
  | References
  | DocumentSymbol
  | DocumentHighlights
  | DocumentFormatting
  | RangeFormatting
  | OnTypeFormatting
  | CodeAction
  | WorkspaceSymbol
  | WorkspaceReferences
  | Rename
  | PrepareRename
  | ExecuteCommand
deriving DecidableEq, Fintype

/-- `LspMethod::to_string` (`src/jsonrpc.rs` lines 74-98), match arms in
source order (the source lists `Rename`/`PrepareRename` before the three
workspace methods here, unlike the enum declaration). -/
def LspMethod.to_string : LspMethod → String
  | .Initialize => "initialize"
  | .Shutdown => "shutdown"
  | .DidChange => "textDocument/didChange"
  | .DidOpen => "textDocument/didOpen"
  | .DidClose => "textDocument/didClose"
  | .Hover => "textDocument/hover"
  | .Completion => "textDocument/completion"
  | .SignatureHelp => "textDocument/signatureHelp"
  | .Definition => "textDocument/definition"
  | .References => "textDocument/references"
  | .DocumentSymbol => "textDocument/documentSymbol"
  | .DocumentHighlights => "textDocument/documentHighlights"
  | .DocumentFormatting => "textDocument/formatting"
  | .RangeFormatting => "textDocument/rangeFormatting"
  | .OnTypeFormatting => "textDocument/onTypeFormatting"
  | .CodeAction => "textDocument/codeAction"
  | .Rename => "textDocument/rename"
  | .PrepareRename => "textDocument/prepareRename"
  | .WorkspaceSymbol => "workspace/symbol"
  | .WorkspaceReferences => "workspace/references"
  | .ExecuteCommand => "workspace/executeCommand"

/-- `LspMethod::from_str` (`src/jsonrpc.rs` lines 101-126): a match on the
input string, one arm per canonical wire string, wildcard arm `None`.
Rendered as the chain of string comparisons the Rust match performs. -/
def LspMethod.from_str (s : String) : Option LspMethod :=
  if s = "initialize" then some .Initialize
  else if s = "shutdown" then some .Shutdown
  else if s = "textDocument/didChange" then some .DidChange
  else if s = "textDocument/didOpen" then some .DidOpen
  else if s = "textDocument/didClose" then some .DidClose
  else if s = "textDocument/hover" then some .Hover
  else if s = "textDocument/completion" then some .Completion
  else if s = "textDocument/signatureHelp" then some .SignatureHelp
  else if s = "textDocument/definition" then some .Definition
  else if s = "textDocument/references" then some .References
  else if s = "textDocument/documentSymbol" then some .DocumentSymbol
  else if s = "textDocument/documentHighlights" then some .DocumentHighlights
  else if s = "textDocument/formatting" then some .DocumentFormatting
  else if s = "textDocument/rangeFormatting" then some .RangeFormatting
  else if s = "textDocument/onTypeFormatting" then some .OnTypeFormatting
  else if s = "textDocument/codeAction" then some .CodeAction
  else if s = "workspace/symbol" then some .WorkspaceSymbol
  else if s = "workspace/references" then some .WorkspaceReferences
  else if s = "textDocument/rename" then some .Rename
  else if s = "textDocument/prepareRename" then some .PrepareRename
  else if s = "workspace/executeCommand" then some .ExecuteCommand
  else none

/-- Round trip, shared helper: decoding the encoding of any variant
recovers the variant. -/
theorem LspMethod.round_trip (v : LspMethod) :
    LspMethod.from_str v.to_string = some v := by
  cases v <;> rfl

/-- If no variant encodes to `s`, the decoding chain falls through to its
wildcard arm (shared helper). -/
theorem LspMethod.from_str_miss {s : String}
    (h : ∀ v : LspMethod, v.to_string ≠ s) : LspMethod.from_str s = none := by
  unfold LspMethod.from_str
  rw [if_neg (show s ≠ "initialize" from Ne.symm (h .Initialize)),
    if_neg (show s ≠ "shutdown" from Ne.symm (h .Shutdown)),
    if_neg (show s ≠ "textDocument/didChange" from Ne.symm (h .DidChange)),
    if_neg (show s ≠ "textDocument/didOpen" from Ne.symm (h .DidOpen)),
    if_neg (show s ≠ "textDocument/didClose" from Ne.symm (h .DidClose)),
    if_neg (show s ≠ "textDocument/hover" from Ne.symm (h .Hover)),
    if_neg (show s ≠ "textDocument/completion" from Ne.symm (h .Completion)),
    if_neg (show s ≠ "textDocument/signatureHelp" from Ne.symm (h .SignatureHelp)),
    if_neg (show s ≠ "textDocument/definition" from Ne.symm (h .Definition)),
    if_neg (show s ≠ "textDocument/references" from Ne.symm (h .References)),
    if_neg (show s ≠ "textDocument/documentSymbol" from Ne.symm (h .DocumentSymbol)),
    if_neg (show s ≠ "textDocument/documentHighlights" from Ne.symm (h .DocumentHighlights)),
    if_neg (show s ≠ "textDocument/formatting" from Ne.symm (h .DocumentFormatting)),
    if_neg (show s ≠ "textDocument/rangeFormatting" from Ne.symm (h .RangeFormatting)),
    if_neg (show s ≠ "textDocument/onTypeFormatting" from Ne.symm (h .OnTypeFormatting)),
    if_neg (show s ≠ "textDocument/codeAction" from Ne.symm (h .CodeAction)),
    if_neg (show s ≠ "workspace/symbol" from Ne.symm (h .WorkspaceSymbol)),
    if_neg (show s ≠ "workspace/references" from Ne.symm (h .WorkspaceReferences)),
    if_neg (show s ≠ "textDocument/rename" from Ne.symm (h .Rename)),
    if_neg (show s ≠ "textDocument/prepareRename" from Ne.symm (h .PrepareRename)),
    if_neg (show s ≠ "workspace/executeCommand" from Ne.symm (h .ExecuteCommand))]

/-- Modelled from the spec: the method string table of spec section 6
(variant to wire string), transcribed row by row in the table's order.
Written independently of `LspMethod.to_string` so the code's table can be
compared against the spec's. -/
def specWireString : LspMethod → String
  | .Initialize => "initialize"
  | .Shutdown => "shutdown"
  | .DidOpen => "textDocument/didOpen"
  | .DidChange => "textDocument/didChange"
  | .DidClose => "textDocument/didClose"
  | .Hover => "textDocument/hover"
  | .Completion => "textDocument/completion"
  | .SignatureHelp => "textDocument/signatureHelp"
  | .Definition => "textDocument/definition"
  | .References => "textDocument/references"
  | .DocumentSymbol => "textDocument/documentSymbol"
  | .DocumentHighlights => "textDocument/documentHighlights"
  | .DocumentFormatting => "textDocument/formatting"
  | .RangeFormatting => "textDocument/rangeFormatting"
  | .OnTypeFormatting => "textDocument/onTypeFormatting"
  | .CodeAction => "textDocument/codeAction"
  | .WorkspaceSymbol => "workspace/symbol"
  | .WorkspaceReferences => "workspace/references"
  | .Rename => "textDocument/rename"
  | .PrepareRename => "textDocument/prepareRename"
  | .ExecuteCommand => "workspace/executeCommand"

/-- C1: for every variant `v` of the `LspMethod` enumeration,
`from_str (to_string v) = some v`. -/
theorem from_str_to_string_round_trip (v : LspMethod) :
    LspMethod.from_str v.to_string = some v :=
  LspMethod.round_trip v

/-- C2: `to_string` is total (it is a Lean function on all of `LspMethod`)
and agrees with the spec's method string table on every variant; in
particular on `Initialize`, `DidChange`, `DocumentFormatting` and
`WorkspaceSymbol`. -/
theorem to_string_matches_spec_table :
    (∀ v : LspMethod, v.to_string = specWireString v) ∧
      LspMethod.Initialize.to_string = "initialize" ∧
      LspMethod.DidChange.to_string = "textDocument/didChange" ∧
      LspMethod.DocumentFormatting.to_string = "textDocument/formatting" ∧
      LspMethod.WorkspaceSymbol.to_string = "workspace/symbol" :=
  ⟨by decide, rfl, rfl, rfl, rfl⟩

/-- C3: for every string `s` that is not the wire string of any variant,
`from_str s = none`. -/
theorem from_str_unrecognized_none (s : String)
    (h : ∀ v : LspMethod, v.to_string ≠ s) : LspMethod.from_str s = none :=
  LspMethod.from_str_miss h

/-- Witness for C3 at the spec's two concrete negative inputs. -/
theorem from_str_unrecognized_none_witness :
    LspMethod.from_str "not/a/method" = none ∧ LspMethod.from_str "" = none :=
  ⟨from_str_unrecognized_none "not/a/method" (by decide),
    from_str_unrecognized_none "" (by decide)⟩

/-- C4: `to_string` is injective on `LspMethod`: variants with the same
wire string are equal. -/
theorem to_string_injective (v w : LspMethod)
    (h : v.to_string = w.to_string) : v = w := by
  have h1 := LspMethod.round_trip w
  rw [← h] at h1
  exact Option.some.inj ((LspMethod.round_trip v).symm.trans h1)

/-- Witness for C4 at a concrete input. -/
theorem to_string_injective_witness : LspMethod.Shutdown = LspMethod.Shutdown :=
  to_string_injective LspMethod.Shutdown LspMethod.Shutdown rfl

/-- C5 counterexample: the `LspMethod` enumeration does not have exactly 20
members. -/
theorem lspMethod_card_ne_twenty : ¬ (Fintype.card LspMethod = 20) := by
  decide

/-- C5 amended: the `LspMethod` enumeration is a closed variant set with
exactly 21 members. -/
theorem lspMethod_card_eq_21 : Fintype.card LspMethod = 21 := by
  decide

/-- The hex digits serde_json uses for control-character escapes
(lowercase). -/
def hexDigit (n : Nat) : Char :=
  if n < 10 then Char.ofNat (48 + n) else Char.ofNat (87 + n)

/-- JSON string escaping of one character as serde_json emits it: quote and
backslash escaped, the named control escapes, other control characters as
a unicode escape, everything else verbatim. -/
def escapeChar (c : Char) : String :=
  if c = '"' then "\\\""
  else if c = '\\' then "\\\\"
  else if c = '\x08' then "\\b"
  else if c = '\x0c' then "\\f"
  else if c = '\n' then "\\n"
  else if c = '\r' then "\\r"
  else if c = '\t' then "\\t"
  else if c.toNat < 32 then
    "\\u00" ++ String.mk [hexDigit (c.toNat / 16), hexDigit (c.toNat % 16)]
  else String.mk [c]

/-- A whole string, JSON-escaped. -/
def jsonEscapeString (s : String) : String :=
  s.data.foldl (fun acc c => acc ++ escapeChar c) ""

/-- serde_json serialization of a string value: a double quote, the escaped
content, a double quote. -/
def serializeString (s : String) : String :=
  "\"" ++ jsonEscapeString s ++ "\""

/-- The `JsonRpcRequest` struct of `src/jsonrpc.rs` (lines 130-140): four
public fields, all caller-supplied at construction. `id` is a `u64`,
modelled as `Nat`. -/
structure JsonRpcRequest (T : Type) where
  jsonrpc : String
  method : String
  params : List T
  id : Nat

/-- serde_json compact serialization of a `JsonRpcRequest`, derived field
by field in declaration order (`jsonrpc`, `method`, `params`, `id`), given
a serializer for the parameter type. -/
def serializeRequest {T : Type} (serT : T → String) (r : JsonRpcRequest T) : String :=
  "\x7b\"jsonrpc\":" ++ serializeString r.jsonrpc
    ++ ",\"method\":" ++ serializeString r.method
    ++ ",\"params\":[" ++ String.intercalate "," (r.params.map serT)
    ++ "],\"id\":" ++ toString r.id ++ "\x7d"

/-- The request value built in `src/main.rs` (lines 5-10): `jsonrpc` is
the literal `"2.0"`, `method` is `LspMethod::Initialize.to_string()`,
`params` is the empty vector of strings, `id` is 1. -/
def mainRequest : JsonRpcRequest String :=
  { jsonrpc := "2.0", method := LspMethod.Initialize.to_string, params := [], id := 1 }

/-- C6: serializing the request main builds (method `Initialize`, empty
params, id 1) yields exactly the spec's literal JSON text. -/
theorem request_serialization_literal :
    serializeRequest serializeString mainRequest
      = "\x7b\"jsonrpc\":\"2.0\",\"method\":\"initialize\",\"params\":[],\"id\":1\x7d" := by
  rfl

/-- C7 counterexample: the request struct takes its `jsonrpc` field from
the caller, so a request whose protocol version differs from "2.0" can be
constructed; nothing injects the constant at construction. -/
theorem protocol_version_caller_supplied :
    (JsonRpcRequest.mk "1.0" "initialize" ([] : List String) 1).jsonrpc ≠ "2.0" := by
  decide

/-- C7 amended: construction takes all four fields, `jsonrpc` included,
from the caller and always succeeds; the repository's single construction
site (main) supplies the fixed constant "2.0" for it. -/
theorem request_construction_fields :
    (∀ (j m : String) (p : List String) (i : Nat),
        (JsonRpcRequest.mk j m p i).jsonrpc = j) ∧
      mainRequest.jsonrpc = "2.0" :=
  ⟨fun _ _ _ _ => rfl, rfl⟩

/-- JSON values (serde_json::Value restricted to the integral numbers the
claims use; an object is its field list in textual order, as serde's map
visitor sees it). -/
inductive Json where
  | null
  | bool (b : Bool)
  | num (n : Int)
  | str (s : String)
  | arr (xs : List Json)
  | obj (fields : List (String × Json))

/-- The `JsonRpcError` struct of `src/jsonrpc.rs` (lines 158-165): `code`
is an `i32` (modelled as `Int`, range-checked at decode time), `message` a
string, `data` an optional opaque JSON value. -/
structure JsonRpcError where
  code : Int
  message : String
  data : Option Json

/-- Decode failures. serde_json reports one error kind with a message; the
spec names the structural-failure kind `MalformedEnvelope`. -/
inductive DecodeError where
  | malformedEnvelope (msg : String)

/-- Deserializing an `i32` field value: a number within the i32 range. -/
def deserI32 : Json → Except DecodeError Int
  | .num n =>
      if -(2 ^ 31) ≤ n ∧ n < 2 ^ 31 then .ok n
      else .error (.malformedEnvelope "invalid value: integer out of i32 range")
  | _ => .error (.malformedEnvelope "invalid type: expected i32")

/-- Deserializing a `u64` field value: a number within the u64 range. -/
def deserU64 : Json → Except DecodeError Nat
  | .num n =>
      if 0 ≤ n ∧ n < 2 ^ 64 then .ok n.toNat
      else .error (.malformedEnvelope "invalid value: integer out of u64 range")
  | _ => .error (.malformedEnvelope "invalid type: expected u64")

/-- Deserializing a string field value. -/
def deserString : Json → Except DecodeError String
  | .str s => .ok s
  | _ => .error (.malformedEnvelope "invalid type: expected a string")

/-- Deserializing an `Option<T>` field value, as serde does: JSON null is
`None`, anything else is `Some` of the inner deserialization. -/
def deserOpt {T : Type} (dT : Json → Except DecodeError T) :
    Json → Except DecodeError (Option T)
  | .null => .ok none
  | j => (dT j).map some

/-- The finalization step serde generates for a required field
(`ok_or_else(|| missing_field(...))`): the accumulated value, or a
missing-field error. -/
def requireField {A : Type} (o : Option A) (fieldName : String) : Except DecodeError A :=
  match o with
  | some a => .ok a
  | none => .error (.malformedEnvelope ("missing field " ++ fieldName))

/-- The field loop of the serde-derived `Deserialize` for `JsonRpcError`:
walk the object's entries in order, matching keys by name, rejecting
duplicates (`is_some()` check, as serde generates), propagating value
errors (`?`), ignoring unknown keys; then require `code` and `message`,
defaulting the optional `data` to `None`. -/
def decodeErrorFields : List (String × Json) → Option Int → Option String →
    Option (Option Json) → Except DecodeError JsonRpcError
  | [], c?, m?, d? => do
      let c ← requireField c? "code"
      let m ← requireField m? "message"
      pure ⟨c, m, d?.getD none⟩
  | (k, x) :: rest, c?, m?, d? =>
      if k = "code" then
        if c?.isSome then .error (.malformedEnvelope "duplicate field code")
        else do
          let c ← deserI32 x
          decodeErrorFields rest (some c) m? d?
      else if k = "message" then
        if m?.isSome then .error (.malformedEnvelope "duplicate field message")
        else do
          let m ← deserString x
          decodeErrorFields rest c? (some m) d?
      else if k = "data" then
        if d?.isSome then .error (.malformedEnvelope "duplicate field data")
        else do
          let d ← deserOpt Except.ok x
          decodeErrorFields rest c? m? (some d)
      else decodeErrorFields rest c? m? d?

/-- serde-derived deserialization of a `JsonRpcError` value: the input
must be an object; its fields feed the field loop. -/
def decodeJsonRpcError : Json → Except DecodeError JsonRpcError
  | .obj fields => decodeErrorFields fields none none none
  | _ => .error (.malformedEnvelope "invalid type: expected struct JsonRpcError")

/-- The `JsonRpcResponse` struct of `src/jsonrpc.rs` (lines 144-153):
protocol tag, optional result of the payload type, optional error object,
required `u64` id (modelled as `Nat`). -/
structure JsonRpcResponse (T : Type) where
  jsonrpc : String
  result : Option T
  error : Option JsonRpcError
  id : Nat

/-- The field loop of the serde-derived `Deserialize` for
`JsonRpcResponse`: entries matched by key in input order, duplicates
rejected, unknown keys ignored; at the end `jsonrpc` and `id` are
required, while the `Option` fields `result` and `error` default to
`None` when absent. -/
def decodeResponseFields {T : Type} (dT : Json → Except DecodeError T) :
    List (String × Json) → Option String → Option (Option T) →
    Option (Option JsonRpcError) → Option Nat →
    Except DecodeError (JsonRpcResponse T)
  | [], v?, r?, e?, i? => do
      let v ← requireField v? "jsonrpc"
      let i ← requireField i? "id"
      pure ⟨v, r?.getD none, e?.getD none, i⟩
  | (k, x) :: rest, v?, r?, e?, i? =>
      if k = "jsonrpc" then
        if v?.isSome then .error (.malformedEnvelope "duplicate field jsonrpc")
        else do
          let v ← deserString x
          decodeResponseFields dT rest (some v) r? e? i?
      else if k = "result" then
        if r?.isSome then .error (.malformedEnvelope "duplicate field result")
        else do
          let r ← deserOpt dT x
          decodeResponseFields dT rest v? (some r) e? i?
      else if k = "error" then
        if e?.isSome then .error (.malformedEnvelope "duplicate field error")
        else do
          let er ← deserOpt decodeJsonRpcError x
          decodeResponseFields dT rest v? r? (some er) i?
      else if k = "id" then
        if i?.isSome then .error (.malformedEnvelope "duplicate field id")
        else do
          let i ← deserU64 x
          decodeResponseFields dT rest v? r? e? (some i)
      else decodeResponseFields dT rest v? r? e? i?

/-- Parsing a response payload (the spec's `parse` on `ResponseEnvelope`):
the serde-derived deserialization of `JsonRpcResponse` from a JSON value,
given a deserializer for the result payload type. -/
def parseResponse {T : Type} (dT : Json → Except DecodeError T) :
    Json → Except DecodeError (JsonRpcResponse T)
  | .obj fields => decodeResponseFields dT fields none none none none
  | _ => .error (.malformedEnvelope "invalid type: expected struct JsonRpcResponse")

/-- When no entry of the remaining field list carries the key "id" and the
`id` accumulator is still empty, the response field loop can only fail
(shared helper for the missing-id claim). -/
theorem decodeResponseFields_no_id {T : Type} (dT : Json → Except DecodeError T) :
    ∀ (fs : List (String × Json)) (v? : Option String) (r? : Option (Option T))
      (e? : Option (Option JsonRpcError)),
      (∀ p ∈ fs, p.1 ≠ "id") →
      ∃ m, decodeResponseFields dT fs v? r? e? none = .error (.malformedEnvelope m) := by
  intro fs
  induction fs with
  | nil =>
    intro v? r? e? _
    cases v? with
    | none => exact ⟨_, rfl⟩
    | some v => exact ⟨_, rfl⟩
  | cons p rest ih =>
    intro v? r? e? h
    obtain ⟨k, x⟩ := p
    have hk : k ≠ "id" := h ⟨k, x⟩ (List.mem_cons_self _ _)
    have hrest : ∀ q ∈ rest, q.1 ≠ "id" := fun q hq => h q (List.mem_cons_of_mem _ hq)
    simp only [decodeResponseFields]
    split_ifs with h1 h2 h3 h4 h5 h6
    · exact ⟨_, rfl⟩
    · cases hd : deserString x with
      | error e => obtain ⟨msg⟩ := e; exact ⟨msg, rfl⟩
      | ok v => exact ih (some v) r? e? hrest
    · exact ⟨_, rfl⟩
    · cases hd : deserOpt dT x with
      | error e => obtain ⟨msg⟩ := e; exact ⟨msg, rfl⟩
      | ok r => exact ih v? (some r) e? hrest
    · exact ⟨_, rfl⟩
    · cases hd : deserOpt decodeJsonRpcError x with
      | error e => obtain ⟨msg⟩ := e; exact ⟨msg, rfl⟩
      | ok er => exact ih v? r? (some er) hrest
    · exact ih v? r? e? hrest

/-- On a non-null JSON value, `Option` deserialization is the inner
deserialization wrapped in `Some` (shared helper). -/
theorem deserOpt_of_ne_null {T : Type} (dT : Json → Except DecodeError T) (j : Json)
    (h : j ≠ Json.null) : deserOpt dT j = (dT j).map some := by
  cases j <;> first | exact absurd rfl h | rfl

/-- C8: parsing a response object that has no `id` field fails with a
`MalformedEnvelope` decode error, for any payload deserializer and any
other fields present. -/
theorem parse_missing_id_fails {T : Type} (dT : Json → Except DecodeError T)
    (fields : List (String × Json)) (h : ∀ p ∈ fields, p.1 ≠ "id") :
    ∃ m, parseResponse dT (Json.obj fields) = .error (.malformedEnvelope m) :=
  decodeResponseFields_no_id dT fields none none none h

/-- Witness for C8: a response with `jsonrpc` and `result` but no `id`
fails to parse. -/
theorem parse_missing_id_fails_witness :
    ∃ m, parseResponse Except.ok
        (Json.obj [("jsonrpc", Json.str "2.0"), ("result", Json.null)])
      = .error (.malformedEnvelope m) :=
  parse_missing_id_fails Except.ok
    [("jsonrpc", Json.str "2.0"), ("result", Json.null)] (by decide)

/-- C9: decoding enforces no mutual exclusivity on `result`/`error`: a
well-formed response object carrying both a non-null `result` and an
`error` object parses successfully with both fields populated. -/
theorem parse_both_present (s : String) (r : Json) (c : Int) (m : String) (n : Nat)
    (hr : r ≠ Json.null) (hc : -(2 ^ 31) ≤ c ∧ c < 2 ^ 31) (hn : (n : Int) < 2 ^ 64) :
    parseResponse Except.ok
        (Json.obj [("jsonrpc", Json.str s), ("result", r),
          ("error", Json.obj [("code", Json.num c), ("message", Json.str m)]),
          ("id", Json.num (n : Int))])
      = .ok ⟨s, some r, some ⟨c, m, none⟩, n⟩ := by
  have hOpt : deserOpt Except.ok r = .ok (some r) := deserOpt_of_ne_null Except.ok r hr
  have hOpt2 : deserOpt decodeJsonRpcError
        (Json.obj [("code", Json.num c), ("message", Json.str m)])
      = (decodeJsonRpcError
          (Json.obj [("code", Json.num c), ("message", Json.str m)])).map some :=
    deserOpt_of_ne_null _ _ (fun h => Json.noConfusion h)
  simp [parseResponse, decodeResponseFields, deserString, deserU64, deserI32,
    requireField, decodeJsonRpcError, decodeErrorFields, hOpt, hOpt2]
  rw [if_pos (show -2147483648 ≤ c ∧ c < 2147483648 by omega),
    if_pos (show n < 18446744073709551616 by omega)]
  rfl

/-- Witness for C9 at a concrete both-present payload. -/
theorem parse_both_present_witness :
    parseResponse Except.ok
        (Json.obj [("jsonrpc", Json.str "2.0"), ("result", Json.num 5),
          ("error", Json.obj [("code", Json.num (-32601)),
            ("message", Json.str "Method not found")]),
          ("id", Json.num ((1 : Nat) : Int))])
      = .ok ⟨"2.0", some (Json.num 5), some ⟨-32601, "Method not found", none⟩, 1⟩ :=
  parse_both_present "2.0" (Json.num 5) (-32601) "Method not found" 1
    (fun h => Json.noConfusion h) (by decide) (by decide)

/-- C10: a well-formed response object carrying `jsonrpc` and `id` but
neither `result` nor `error` parses successfully, both optional fields
defaulting to `None`. -/
theorem parse_both_absent (s : String) (n : Nat) (hn : (n : Int) < 2 ^ 64) :
    parseResponse Except.ok
        (Json.obj [("jsonrpc", Json.str s), ("id", Json.num (n : Int))])
      = .ok ⟨s, none, none, n⟩ := by
  simp [parseResponse, decodeResponseFields, deserString, deserU64, requireField]
  rw [if_pos (show n < 18446744073709551616 by omega)]
  rfl

/-- Witness for C10 at a concrete both-absent payload. -/
theorem parse_both_absent_witness :
    parseResponse Except.ok
        (Json.obj [("jsonrpc", Json.str "2.0"), ("id", Json.num ((1 : Nat) : Int))])
      = .ok ⟨"2.0", none, none, 1⟩ :=
  parse_both_absent "2.0" 1 (by decide)

end LspStudy
